import Mathlib

/-!
A shallow embedding of the WWVB transmitter library (`wwvb.h`): the frame
encoder (BCD weight-ladder subframes), the 60-second frame sequencer, and the
per-second bit modulator driven by the carrier-tick interrupt routine.

Arrays of ten `boolean` bits become `Subframe` records; the class members
become fields of `WWVBState`; each member function becomes a state-passing
Lean function translated statement by statement from the source.  Machine
integers (`uint8_t`/`uint16_t`) are modelled as `Nat`: every value the code
stores in them is far below the wrap-around bound (the largest counter value
is `WWVB_ENDOFBIT = 60606 < 2^16`), so no modular reduction is needed.
-/

/-- One ten-bit WWVB subframe (`boolean MINS[10]` etc. in the source). -/
structure Subframe where
  b0 : Bool
  b1 : Bool
  b2 : Bool
  b3 : Bool
  b4 : Bool
  b5 : Bool
  b6 : Bool
  b7 : Bool
  b8 : Bool
  b9 : Bool
deriving DecidableEq, Repr

/-- Array indexing `A[i]` for a subframe (indices used are always `< 10`). -/
def Subframe.get (s : Subframe) : Nat → Bool
  | 0 => s.b0
  | 1 => s.b1
  | 2 => s.b2
  | 3 => s.b3
  | 4 => s.b4
  | 5 => s.b5
  | 6 => s.b6
  | 7 => s.b7
  | 8 => s.b8
  | 9 => s.b9
  | _ => false

/-- The greedy weight-ladder of the specification: each weight, largest to
smallest, either fits (bit 1, subtract it) or does not (bit 0). -/
def weightLadder : List Nat → Nat → List Bool
  | [], _ => []
  | w :: ws, v =>
    if v ≥ w then true :: weightLadder ws (v - w)
    else false :: weightLadder ws v

/-- The ladder of `wwvb::set_mins`: weights 40,20,10,8,4,2 tested in order,
the remainder written as the final (weight-1) bit, exactly as the chain of
`if (_mins >= w) { _mins -= w; MINS[i] = 1; } else MINS[i] = 0;` statements. -/
def minsBits (m : Nat) : List Bool :=
  let s1 := if m ≥ 40 then (m - 40, true) else (m, false)
  let s2 := if s1.1 ≥ 20 then (s1.1 - 20, true) else (s1.1, false)
  let s3 := if s2.1 ≥ 10 then (s2.1 - 10, true) else (s2.1, false)
  let s5 := if s3.1 ≥ 8 then (s3.1 - 8, true) else (s3.1, false)
  let s6 := if s5.1 ≥ 4 then (s5.1 - 4, true) else (s5.1, false)
  let s7 := if s6.1 ≥ 2 then (s6.1 - 2, true) else (s6.1, false)
  [s1.2, s2.2, s3.2, s5.2, s6.2, s7.2, s7.1 != 0]

/-- The writes of `wwvb::set_mins` into `MINS[1..3]` and `MINS[5..8]`
(positions 0, 4 and 9 are untouched). -/
def minsWrite (A : Subframe) (m : Nat) : Subframe :=
  let bs := minsBits m
  { A with b1 := bs.getD 0 false, b2 := bs.getD 1 false, b3 := bs.getD 2 false,
           b5 := bs.getD 3 false, b6 := bs.getD 4 false, b7 := bs.getD 5 false,
           b8 := bs.getD 6 false }

/-- The ladder of `wwvb::set_hour`: weights 20,10,8,4,2 and the remainder. -/
def hourBits (h : Nat) : List Bool :=
  let s2 := if h ≥ 20 then (h - 20, true) else (h, false)
  let s3 := if s2.1 ≥ 10 then (s2.1 - 10, true) else (s2.1, false)
  let s5 := if s3.1 ≥ 8 then (s3.1 - 8, true) else (s3.1, false)
  let s6 := if s5.1 ≥ 4 then (s5.1 - 4, true) else (s5.1, false)
  let s7 := if s6.1 ≥ 2 then (s6.1 - 2, true) else (s6.1, false)
  [s2.2, s3.2, s5.2, s6.2, s7.2, s7.1 != 0]

/-- The writes of `wwvb::set_hour` into `HOUR[2..3]` and `HOUR[5..8]`. -/
def hourWrite (A : Subframe) (h : Nat) : Subframe :=
  let bs := hourBits h
  { A with b2 := bs.getD 0 false, b3 := bs.getD 1 false, b5 := bs.getD 2 false,
           b6 := bs.getD 3 false, b7 := bs.getD 4 false, b8 := bs.getD 5 false }

/-- The ladder of `wwvb::set_doty`: weights 200,100,80,40,20,10 go to the
DOTY subframe, 8,4,2 and the remainder to the leading DUT1 positions. -/
def dotyBits (d : Nat) : List Bool :=
  let s2 := if d ≥ 200 then (d - 200, true) else (d, false)
  let s3 := if s2.1 ≥ 100 then (s2.1 - 100, true) else (s2.1, false)
  let s5 := if s3.1 ≥ 80 then (s3.1 - 80, true) else (s3.1, false)
  let s6 := if s5.1 ≥ 40 then (s5.1 - 40, true) else (s5.1, false)
  let s7 := if s6.1 ≥ 20 then (s6.1 - 20, true) else (s6.1, false)
  let s8 := if s7.1 ≥ 10 then (s7.1 - 10, true) else (s7.1, false)
  let u0 := if s8.1 ≥ 8 then (s8.1 - 8, true) else (s8.1, false)
  let u1 := if u0.1 ≥ 4 then (u0.1 - 4, true) else (u0.1, false)
  let u2 := if u1.1 ≥ 2 then (u1.1 - 2, true) else (u1.1, false)
  [s2.2, s3.2, s5.2, s6.2, s7.2, s8.2, u0.2, u1.2, u2.2, u2.1 != 0]

/-- The writes of `wwvb::set_doty` into `DOTY[2..3]`, `DOTY[5..8]` and
`DUT1[0..3]`; result is the pair (new DOTY, new DUT1). -/
def dotyWrite (D U : Subframe) (d : Nat) : Subframe × Subframe :=
  let bs := dotyBits d
  ({ D with b2 := bs.getD 0 false, b3 := bs.getD 1 false, b5 := bs.getD 2 false,
            b6 := bs.getD 3 false, b7 := bs.getD 4 false, b8 := bs.getD 5 false },
   { U with b0 := bs.getD 6 false, b1 := bs.getD 7 false, b2 := bs.getD 8 false,
            b3 := bs.getD 9 false })

/-- The ladder of `wwvb::set_year`: tens weights 80,40,20,10 go to the YEAR
subframe, ones weights 8,4,2 and the remainder to the leading MISC positions. -/
def yearBits (y : Nat) : List Bool :=
  let s5 := if y ≥ 80 then (y - 80, true) else (y, false)
  let s6 := if s5.1 ≥ 40 then (s5.1 - 40, true) else (s5.1, false)
  let s7 := if s6.1 ≥ 20 then (s6.1 - 20, true) else (s6.1, false)
  let s8 := if s7.1 ≥ 10 then (s7.1 - 10, true) else (s7.1, false)
  let m0 := if s8.1 ≥ 8 then (s8.1 - 8, true) else (s8.1, false)
  let m1 := if m0.1 ≥ 4 then (m0.1 - 4, true) else (m0.1, false)
  let m2 := if m1.1 ≥ 2 then (m1.1 - 2, true) else (m1.1, false)
  [s5.2, s6.2, s7.2, s8.2, m0.2, m1.2, m2.2, m2.1 != 0]

/-- The writes of `wwvb::set_year` into `YEAR[5..8]` and `MISC[0..3]`;
result is the pair (new YEAR, new MISC). -/
def yearWrite (Y M : Subframe) (y : Nat) : Subframe × Subframe :=
  let bs := yearBits y
  ({ Y with b5 := bs.getD 0 false, b6 := bs.getD 1 false, b7 := bs.getD 2 false,
            b8 := bs.getD 3 false },
   { M with b0 := bs.getD 4 false, b1 := bs.getD 5 false, b2 := bs.getD 6 false,
            b3 := bs.getD 7 false })

/-- The state of the `wwvb` class: the six subframe bit arrays, the saved
time fields, the timing constants set by `setup()`, and the sequencer and
modulator counters. -/
structure WWVBState where
  MINS : Subframe
  HOUR : Subframe
  DOTY : Subframe
  DUT1 : Subframe
  YEAR : Subframe
  MISC : Subframe
  mins_ : Nat
  hour_ : Nat
  DD_ : Nat
  MM_ : Nat
  YY_ : Nat
  doty_ : Nat
  is_leap_year_ : Bool
  daylight_savings_ : Nat
  WWVB_LOW : Nat
  WWVB_HIGH : Nat
  WWVB_MARKER : Nat
  WWVB_ENDOFBIT : Nat
  pulse_width0 : Nat
  pulse_width1 : Nat
  pulse_width2 : Nat
  WWVB_LOWTIME : Nat
  isr_count : Nat
  frame_index : Nat
  subframe_index : Nat
  duty_high : Bool
  is_active_ : Bool
deriving DecidableEq, Repr

/-- `wwvb::set_mins`: memoized on `mins_`, then the weight-ladder writes. -/
def set_mins (st : WWVBState) (m : Nat) : WWVBState :=
  if st.mins_ ≠ m then { st with mins_ := m, MINS := minsWrite st.MINS m }
  else st

/-- `wwvb::set_hour`: memoized on `hour_`, then the weight-ladder writes. -/
def set_hour (st : WWVBState) (h : Nat) : WWVBState :=
  if st.hour_ ≠ h then { st with hour_ := h, HOUR := hourWrite st.HOUR h }
  else st

/-- `wwvb::set_doty`: memoized on `doty_`; writes DOTY and the leading DUT1
positions. -/
def set_doty (st : WWVBState) (d : Nat) : WWVBState :=
  if st.doty_ ≠ d then
    { st with doty_ := d, DOTY := (dotyWrite st.DOTY st.DUT1 d).1,
              DUT1 := (dotyWrite st.DOTY st.DUT1 d).2 }
  else st

/-- `wwvb::set_dut1`: sets the DUT1 sign to negative (`DUT1[7] = 1`) and
clears the DUT1 magnitude, which resides in `YEAR[0..3]`. -/
def set_dut1 (st : WWVBState) : WWVBState :=
  { st with DUT1 := { st.DUT1 with b7 := true },
            YEAR := { st.YEAR with b0 := false, b1 := false,
                                   b2 := false, b3 := false } }

/-- `wwvb::set_day`: stores `DD_` only (no subframe bits). -/
def set_day (st : WWVBState) (DD : Nat) : WWVBState :=
  if st.DD_ ≠ DD then { st with DD_ := DD } else st

/-- `wwvb::set_month`: stores `MM_` only (no subframe bits). -/
def set_month (st : WWVBState) (MM : Nat) : WWVBState :=
  if st.MM_ ≠ MM then { st with MM_ := MM } else st

/-- `wwvb::set_year`: memoized on `YY_`; writes YEAR and the leading MISC
positions. -/
def set_year (st : WWVBState) (y : Nat) : WWVBState :=
  if st.YY_ ≠ y then
    { st with YY_ := y, YEAR := (yearWrite st.YEAR st.MISC y).1,
              MISC := (yearWrite st.YEAR st.MISC y).2 }
  else st

/-- `wwvb::set_misc`: memoized leap-year bit `MISC[5]` and the two
daylight-savings bits `MISC[7]`, `MISC[8]`. -/
def set_misc (st : WWVBState) (ly : Bool) (ds : Nat) : WWVBState :=
  let st :=
    if st.is_leap_year_ ≠ ly then
      { st with is_leap_year_ := ly, MISC := { st.MISC with b5 := ly } }
    else st
  if st.daylight_savings_ ≠ ds then
    { st with daylight_savings_ := ds,
              MISC := { st.MISC with b7 := ((ds >>> 1) &&& 1) != 0,
                                     b8 := (ds &&& 1) != 0 } }
  else st

/-- Modelled from the spec: the Gregorian leap-year test `is_leap_year` of the
external TimeDateTools calendar utility (the header is not under src/; §6 of
the spec makes the core consume "leap-year-flag derivation" from it). -/
def is_leap_year (y : Nat) : Bool :=
  (y % 4 == 0 && y % 100 != 0) || y % 400 == 0

/-- Modelled from the spec: days in a calendar month, part of the external
TimeDateTools calendar utility used to derive day-of-year and minute carry. -/
def days_in_month (MM : Nat) (leap : Bool) : Nat :=
  match MM with
  | 1 => 31
  | 2 => if leap then 29 else 28
  | 3 => 31
  | 4 => 30
  | 5 => 31
  | 6 => 30
  | 7 => 31
  | 8 => 31
  | 9 => 30
  | 10 => 31
  | 11 => 30
  | _ => 31

/-- Modelled from the spec: `to_day_of_the_year` of the external TimeDateTools
utility — the 1-based ordinal day within the year (spec glossary: "1-based
ordinal day count within the calendar year"). -/
def to_day_of_the_year (DD MM : Nat) (leap : Bool) : Nat :=
  (List.range (MM - 1)).foldl (fun acc m => acc + days_in_month (m + 1) leap) 0 + DD

/-- Modelled from the spec: advancing a date by one day with month and year
carry (two-digit year wraps at 100), part of the external "add N minutes,
carrying into hour/day/month/year" operation. -/
def next_day (DD MM YY : Nat) : Nat × Nat × Nat :=
  if DD < days_in_month MM (is_leap_year (2000 + YY)) then (DD + 1, MM, YY)
  else if MM < 12 then (1, MM + 1, YY)
  else (1, 1, (YY + 1) % 100)

/-- Modelled from the spec: iterated day advance, used for the hour-to-day
carry of `addTimezone`. -/
def add_days : Nat → Nat × Nat × Nat → Nat × Nat × Nat
  | 0, d => d
  | n + 1, d => add_days n (next_day d.1 d.2.1 d.2.2)

/-- Modelled from the spec: `addTimezone` of the external TimeDateTools
utility — "add N minutes/hours, with carry" into hour, day, month and
two-digit year (§6 of the spec; the seconds argument, zero at every call
site in the source, is omitted).  Returns (mins, hour, DD, MM, YY). -/
def addTimezone (mm hh DD MM YY add_mm add_hh : Nat) : Nat × Nat × Nat × Nat × Nat :=
  let tm := mm + add_mm
  let th := hh + add_hh + tm / 60
  let dmy := add_days (th / 24) (DD, MM, YY)
  (tm % 60, th % 24, dmy.1, dmy.2.1, dmy.2.2)

/-- The private `wwvb::set_time(_daylight_savings)`: recomputes the leap-year
flag and day-of-year from the (already incremented) temporaries and runs every
conditional subframe setter. -/
def set_time_internal (st : WWVBState) (t_mm t_hh t_DD t_MM t_YY ds : Nat) : WWVBState :=
  let ly := is_leap_year (2000 + t_YY)
  let doty := to_day_of_the_year t_DD t_MM ly
  let st := set_mins st t_mm
  let st := set_hour st t_hh
  let st := set_day st t_DD
  let st := set_month st t_MM
  let st := set_doty st doty
  let st := set_year st t_YY
  set_misc st ly ds

/-- The public `wwvb::set_time`: copies the arguments to the temporaries,
advances them by one minute via `addTimezone(..., 0, 1, 0)`, then encodes. -/
def set_time (st : WWVBState) (mins hour DD MM YY ds : Nat) : WWVBState :=
  let r := addTimezone mins hour DD MM YY 1 0
  set_time_internal st r.1 r.2.1 r.2.2.1 r.2.2.2.1 r.2.2.2.2 ds

/-- `wwvb::get_time`: the read-only accessor (mins_, hour_, DD_, MM_, YY_). -/
def get_time (st : WWVBState) : Nat × Nat × Nat × Nat × Nat :=
  (st.mins_, st.hour_, st.DD_, st.MM_, st.YY_)

/-- `wwvb::add_time`: reads the saved time, advances it via `addTimezone`,
then encodes (the private `set_time()` call uses the default
`_daylight_savings = 0`). -/
def add_time (st : WWVBState) (mins hour : Nat) : WWVBState :=
  let r := addTimezone st.mins_ st.hour_ st.DD_ st.MM_ st.YY_ mins hour
  set_time_internal st r.1 r.2.1 r.2.2.1 r.2.2.2.1 r.2.2.2.2 0

/-- `pulse_width[b]` for a boolean data bit index (the source indexes the
array with a `boolean`, so only entries 0 and 1 are ever read). -/
def pulse_width (st : WWVBState) (b : Bool) : Nat :=
  if b then st.pulse_width1 else st.pulse_width0

/-- The marker positions of `wwvb::set_lowTime`'s switch statement. -/
def isMarkerIndex (i : Nat) : Bool :=
  i == 0 || i == 9 || i == 19 || i == 29 || i == 39 || i == 49 || i == 59

/-- `wwvb::set_lowTime`: a frame marker gets `WWVB_MARKER`; otherwise the
subframe for the current decade supplies the data bit at
`subframe_index = frame_index % 10`, mapped through `pulse_width`. -/
def set_lowTime (st : WWVBState) : WWVBState :=
  if isMarkerIndex st.frame_index then { st with WWVB_LOWTIME := st.WWVB_MARKER }
  else
    let st := { st with subframe_index := st.frame_index % 10 }
    if st.frame_index < 10 then
      { st with WWVB_LOWTIME := pulse_width st (st.MINS.get st.subframe_index) }
    else if st.frame_index < 20 then
      { st with WWVB_LOWTIME := pulse_width st (st.HOUR.get st.subframe_index) }
    else if st.frame_index < 30 then
      { st with WWVB_LOWTIME := pulse_width st (st.DOTY.get st.subframe_index) }
    else if st.frame_index < 40 then
      { st with WWVB_LOWTIME := pulse_width st (st.DUT1.get st.subframe_index) }
    else if st.frame_index < 50 then
      { st with WWVB_LOWTIME := pulse_width st (st.YEAR.get st.subframe_index) }
    else if st.frame_index < 60 then
      { st with WWVB_LOWTIME := pulse_width st (st.MISC.get st.subframe_index) }
    else st

/-- `wwvb::interrupt_routine`: one carrier tick.  Pre-increments `isr_count`;
at `WWVB_LOWTIME` raises the duty cycle; at `WWVB_ENDOFBIT` lowers it,
advances the frame index (rolling the minute over at 60), recomputes the next
low time and resets the counter. -/
def interrupt_routine (st : WWVBState) : WWVBState :=
  let st := { st with isr_count := st.isr_count + 1 }
  if st.isr_count = st.WWVB_LOWTIME then
    { st with duty_high := true }
  else if st.isr_count ≥ st.WWVB_ENDOFBIT then
    let st := { st with duty_high := false }
    let st :=
      if st.frame_index + 1 = 60 then
        let st := { st with frame_index := st.frame_index + 1 }
        let st := add_time st 1 0
        { st with frame_index := 0 }
      else { st with frame_index := st.frame_index + 1 }
    let st := { st with subframe_index := st.frame_index % 10 }
    let st := set_lowTime st
    { st with isr_count := 0 }
  else st

/-- The state of the static `wwvb` object before `setup()` runs: the six
arrays carry their brace initializers, every scalar member of the static
object is zero-initialized (in particular `pulse_width`, whose member
initializer copies the still-zero `WWVB_LOW/HIGH/MARKER`). -/
def initialState : WWVBState :=
  { MINS := ⟨true, true, true, true, false, true, true, true, true, true⟩
    HOUR := ⟨false, false, true, true, false, true, true, true, true, true⟩
    DOTY := ⟨false, false, true, true, false, true, true, true, true, true⟩
    DUT1 := ⟨true, true, true, true, false, false, false, true, false, true⟩
    YEAR := ⟨true, true, true, true, false, true, true, true, true, true⟩
    MISC := ⟨true, true, true, true, false, true, true, true, true, true⟩
    mins_ := 0, hour_ := 0, DD_ := 0, MM_ := 0, YY_ := 0, doty_ := 0
    is_leap_year_ := false, daylight_savings_ := 0
    WWVB_LOW := 0, WWVB_HIGH := 0, WWVB_MARKER := 0, WWVB_ENDOFBIT := 0
    pulse_width0 := 0, pulse_width1 := 0, pulse_width2 := 0
    WWVB_LOWTIME := 0, isr_count := 0, frame_index := 0, subframe_index := 0
    duty_high := false, is_active_ := false }

/-- `wwvb::setup()`: the timing constants for the two clock branches of the
`#if` (ATtiny85/45 or a 16 MHz clock versus an 8 MHz clock), the default low
time, the `pulse_width` assignments — reproduced exactly as written, with
`pulse_width[1]` assigned twice and `pulse_width[2]` never assigned — the
low initial duty, the cleared indices and the one-time `set_dut1()`. -/
def setup (fastClock : Bool) (st : WWVBState) : WWVBState :=
  let st :=
    if fastClock then
      { st with WWVB_LOW := 12121, WWVB_HIGH := 30303,
                WWVB_MARKER := 48485, WWVB_ENDOFBIT := 60606 }
    else
      { st with WWVB_LOW := 12030, WWVB_HIGH := 30075,
                WWVB_MARKER := 48120, WWVB_ENDOFBIT := 60150 }
  let st := { st with WWVB_LOWTIME := st.WWVB_LOW }
  let st := { st with pulse_width0 := st.WWVB_LOW }
  let st := { st with pulse_width1 := st.WWVB_HIGH }
  let st := { st with pulse_width1 := st.WWVB_MARKER }
  let st := { st with duty_high := false }
  let st := { st with frame_index := 0, subframe_index := 0, isr_count := 0 }
  set_dut1 st

/-- `wwvb::start()`: clears the indices, derives the first low time, sets the
duty low, and resumes the tick source. -/
def start (st : WWVBState) : WWVBState :=
  let st := { st with frame_index := 0, subframe_index := 0 }
  let st := set_lowTime st
  let st := { st with duty_high := false }
  { st with is_active_ := true }

/-- The state after `setup()` on the ATtiny85 / 16 MHz branch: the starting
point of every concrete scenario below. -/
def afterSetup : WWVBState := setup true initialState

/-- The constant part of the DUT1 field: the DUT1 subframe past the
day-of-year ones digit (positions 4–9, holding the sign pattern) together
with the DUT1 magnitude, which resides in `YEAR[0..3]`. -/
def dut1Const (st : WWVBState) : Bool × Bool × Bool × Bool × Bool × Bool × Bool × Bool × Bool × Bool :=
  (st.DUT1.b4, st.DUT1.b5, st.DUT1.b6, st.DUT1.b7, st.DUT1.b8, st.DUT1.b9,
   st.YEAR.b0, st.YEAR.b1, st.YEAR.b2, st.YEAR.b3)

/-- The subframe the specification assigns to a frame position: the decade of
`frame_index` selects MINS, HOUR, DOTY, DUT1, YEAR or MISC. -/
def subframeOf (st : WWVBState) (i : Nat) : Subframe :=
  if i < 10 then st.MINS
  else if i < 20 then st.HOUR
  else if i < 30 then st.DOTY
  else if i < 40 then st.DUT1
  else if i < 50 then st.YEAR
  else st.MISC

/-- A concrete state one tick before the end of the last bit of a frame at
Jan 31 23:59 of year 2026: frame_index 59, minute 59, counter one short of
`WWVB_ENDOFBIT`. -/
def rolloverState : WWVBState :=
  { afterSetup with frame_index := 59, mins_ := 59, hour_ := 23,
                    DD_ := 31, MM_ := 1, YY_ := 26, isr_count := 60605 }

/-- A concrete state positioned at data index 8 of the MINS subframe. -/
def dataIndexState : WWVBState := { afterSetup with frame_index := 8 }

/-- A concrete state one tick before the LOW duty threshold. -/
def thresholdState : WWVBState := { afterSetup with isr_count := 12120 }

lemma minsGetD_ladder : ∀ m, m < 60 →
    [(minsBits m).getD 0 false, (minsBits m).getD 1 false, (minsBits m).getD 2 false,
     (minsBits m).getD 3 false, (minsBits m).getD 4 false, (minsBits m).getD 5 false,
     (minsBits m).getD 6 false] = weightLadder [40, 20, 10, 8, 4, 2, 1] m := by
  decide

lemma hourGetD_ladder : ∀ h, h < 24 →
    [(hourBits h).getD 0 false, (hourBits h).getD 1 false, (hourBits h).getD 2 false,
     (hourBits h).getD 3 false, (hourBits h).getD 4 false, (hourBits h).getD 5 false] =
    weightLadder [20, 10, 8, 4, 2, 1] h := by
  decide

lemma yearGetD_ladder : ∀ y, y < 100 →
    [(yearBits y).getD 0 false, (yearBits y).getD 1 false, (yearBits y).getD 2 false,
     (yearBits y).getD 3 false, (yearBits y).getD 4 false, (yearBits y).getD 5 false,
     (yearBits y).getD 6 false, (yearBits y).getD 7 false] =
    weightLadder [80, 40, 20, 10, 8, 4, 2, 1] y := by
  decide

set_option maxRecDepth 8192 in
lemma dotyGetD_ladder : ∀ d, d < 367 →
    [(dotyBits d).getD 0 false, (dotyBits d).getD 1 false, (dotyBits d).getD 2 false,
     (dotyBits d).getD 3 false, (dotyBits d).getD 4 false, (dotyBits d).getD 5 false,
     (dotyBits d).getD 6 false, (dotyBits d).getD 7 false, (dotyBits d).getD 8 false,
     (dotyBits d).getD 9 false] =
    weightLadder [200, 100, 80, 40, 20, 10, 8, 4, 2, 1] d := by
  decide

lemma set_mins_MINS {st : WWVBState} {m : Nat} (h : st.mins_ ≠ m) :
    (set_mins st m).MINS = minsWrite st.MINS m := by
  unfold set_mins; rw [if_pos h]

lemma set_hour_HOUR {st : WWVBState} {h : Nat} (hne : st.hour_ ≠ h) :
    (set_hour st h).HOUR = hourWrite st.HOUR h := by
  unfold set_hour; rw [if_pos hne]

lemma set_doty_frames {st : WWVBState} {d : Nat} (h : st.doty_ ≠ d) :
    (set_doty st d).DOTY = (dotyWrite st.DOTY st.DUT1 d).1 ∧
    (set_doty st d).DUT1 = (dotyWrite st.DOTY st.DUT1 d).2 := by
  unfold set_doty; rw [if_pos h]; exact ⟨rfl, rfl⟩

lemma set_year_frames {st : WWVBState} {y : Nat} (h : st.YY_ ≠ y) :
    (set_year st y).YEAR = (yearWrite st.YEAR st.MISC y).1 ∧
    (set_year st y).MISC = (yearWrite st.YEAR st.MISC y).2 := by
  unfold set_year; rw [if_pos h]; exact ⟨rfl, rfl⟩

@[simp] lemma set_mins_mins_ (st : WWVBState) (m : Nat) : (set_mins st m).mins_ = m := by
  unfold set_mins; split <;> simp_all

@[simp] lemma set_hour_hour_ (st : WWVBState) (h : Nat) : (set_hour st h).hour_ = h := by
  unfold set_hour; split <;> simp_all

@[simp] lemma set_day_DD_ (st : WWVBState) (DD : Nat) : (set_day st DD).DD_ = DD := by
  unfold set_day; split <;> simp_all

@[simp] lemma set_month_MM_ (st : WWVBState) (MM : Nat) : (set_month st MM).MM_ = MM := by
  unfold set_month; split <;> simp_all

@[simp] lemma set_doty_doty_ (st : WWVBState) (d : Nat) : (set_doty st d).doty_ = d := by
  unfold set_doty; split <;> simp_all

@[simp] lemma set_year_YY_ (st : WWVBState) (y : Nat) : (set_year st y).YY_ = y := by
  unfold set_year; split <;> simp_all

@[simp] lemma set_hour_mins_ (st : WWVBState) (h : Nat) : (set_hour st h).mins_ = st.mins_ := by
  unfold set_hour; split <;> rfl

@[simp] lemma set_day_mins_ (st : WWVBState) (DD : Nat) : (set_day st DD).mins_ = st.mins_ := by
  unfold set_day; split <;> rfl

@[simp] lemma set_month_mins_ (st : WWVBState) (MM : Nat) : (set_month st MM).mins_ = st.mins_ := by
  unfold set_month; split <;> rfl

@[simp] lemma set_doty_mins_ (st : WWVBState) (d : Nat) : (set_doty st d).mins_ = st.mins_ := by
  unfold set_doty; split <;> rfl

@[simp] lemma set_year_mins_ (st : WWVBState) (y : Nat) : (set_year st y).mins_ = st.mins_ := by
  unfold set_year; split <;> rfl

@[simp] lemma set_misc_mins_ (st : WWVBState) (ly : Bool) (ds : Nat) :
    (set_misc st ly ds).mins_ = st.mins_ := by
  unfold set_misc; split <;> (dsimp only; split <;> rfl)

@[simp] lemma set_day_hour_ (st : WWVBState) (DD : Nat) : (set_day st DD).hour_ = st.hour_ := by
  unfold set_day; split <;> rfl

@[simp] lemma set_month_hour_ (st : WWVBState) (MM : Nat) : (set_month st MM).hour_ = st.hour_ := by
  unfold set_month; split <;> rfl

@[simp] lemma set_doty_hour_ (st : WWVBState) (d : Nat) : (set_doty st d).hour_ = st.hour_ := by
  unfold set_doty; split <;> rfl

@[simp] lemma set_year_hour_ (st : WWVBState) (y : Nat) : (set_year st y).hour_ = st.hour_ := by
  unfold set_year; split <;> rfl

@[simp] lemma set_misc_hour_ (st : WWVBState) (ly : Bool) (ds : Nat) :
    (set_misc st ly ds).hour_ = st.hour_ := by
  unfold set_misc; split <;> (dsimp only; split <;> rfl)

@[simp] lemma set_month_DD_ (st : WWVBState) (MM : Nat) : (set_month st MM).DD_ = st.DD_ := by
  unfold set_month; split <;> rfl

@[simp] lemma set_doty_DD_ (st : WWVBState) (d : Nat) : (set_doty st d).DD_ = st.DD_ := by
  unfold set_doty; split <;> rfl

@[simp] lemma set_year_DD_ (st : WWVBState) (y : Nat) : (set_year st y).DD_ = st.DD_ := by
  unfold set_year; split <;> rfl

@[simp] lemma set_misc_DD_ (st : WWVBState) (ly : Bool) (ds : Nat) :
    (set_misc st ly ds).DD_ = st.DD_ := by
  unfold set_misc; split <;> (dsimp only; split <;> rfl)

@[simp] lemma set_doty_MM_ (st : WWVBState) (d : Nat) : (set_doty st d).MM_ = st.MM_ := by
  unfold set_doty; split <;> rfl

@[simp] lemma set_year_MM_ (st : WWVBState) (y : Nat) : (set_year st y).MM_ = st.MM_ := by
  unfold set_year; split <;> rfl

@[simp] lemma set_misc_MM_ (st : WWVBState) (ly : Bool) (ds : Nat) :
    (set_misc st ly ds).MM_ = st.MM_ := by
  unfold set_misc; split <;> (dsimp only; split <;> rfl)

@[simp] lemma set_misc_YY_ (st : WWVBState) (ly : Bool) (ds : Nat) :
    (set_misc st ly ds).YY_ = st.YY_ := by
  unfold set_misc; split <;> (dsimp only; split <;> rfl)

@[simp] lemma set_year_doty_ (st : WWVBState) (y : Nat) : (set_year st y).doty_ = st.doty_ := by
  unfold set_year; split <;> rfl

@[simp] lemma set_misc_doty_ (st : WWVBState) (ly : Bool) (ds : Nat) :
    (set_misc st ly ds).doty_ = st.doty_ := by
  unfold set_misc; split <;> (dsimp only; split <;> rfl)

@[simp] lemma set_hour_MINS (st : WWVBState) (h : Nat) : (set_hour st h).MINS = st.MINS := by
  unfold set_hour; split <;> rfl

@[simp] lemma set_day_MINS (st : WWVBState) (DD : Nat) : (set_day st DD).MINS = st.MINS := by
  unfold set_day; split <;> rfl

@[simp] lemma set_month_MINS (st : WWVBState) (MM : Nat) : (set_month st MM).MINS = st.MINS := by
  unfold set_month; split <;> rfl

@[simp] lemma set_doty_MINS (st : WWVBState) (d : Nat) : (set_doty st d).MINS = st.MINS := by
  unfold set_doty; split <;> rfl

@[simp] lemma set_year_MINS (st : WWVBState) (y : Nat) : (set_year st y).MINS = st.MINS := by
  unfold set_year; split <;> rfl

@[simp] lemma set_misc_MINS (st : WWVBState) (ly : Bool) (ds : Nat) :
    (set_misc st ly ds).MINS = st.MINS := by
  unfold set_misc; split <;> (dsimp only; split <;> rfl)

@[simp] lemma set_mins_MISC_b6 (st : WWVBState) (m : Nat) :
    (set_mins st m).MISC.b6 = st.MISC.b6 := by
  unfold set_mins; split <;> rfl

@[simp] lemma set_hour_MISC_b6 (st : WWVBState) (h : Nat) :
    (set_hour st h).MISC.b6 = st.MISC.b6 := by
  unfold set_hour; split <;> rfl

@[simp] lemma set_day_MISC_b6 (st : WWVBState) (DD : Nat) :
    (set_day st DD).MISC.b6 = st.MISC.b6 := by
  unfold set_day; split <;> rfl

@[simp] lemma set_month_MISC_b6 (st : WWVBState) (MM : Nat) :
    (set_month st MM).MISC.b6 = st.MISC.b6 := by
  unfold set_month; split <;> rfl

@[simp] lemma set_doty_MISC_b6 (st : WWVBState) (d : Nat) :
    (set_doty st d).MISC.b6 = st.MISC.b6 := by
  unfold set_doty; split <;> rfl

@[simp] lemma set_year_MISC_b6 (st : WWVBState) (y : Nat) :
    (set_year st y).MISC.b6 = st.MISC.b6 := by
  unfold set_year; split <;> rfl

@[simp] lemma set_misc_MISC_b6 (st : WWVBState) (ly : Bool) (ds : Nat) :
    (set_misc st ly ds).MISC.b6 = st.MISC.b6 := by
  unfold set_misc; split <;> (dsimp only; split <;> rfl)

@[simp] lemma set_mins_dut1Const (st : WWVBState) (m : Nat) :
    dut1Const (set_mins st m) = dut1Const st := by
  unfold set_mins; split <;> rfl

@[simp] lemma set_hour_dut1Const (st : WWVBState) (h : Nat) :
    dut1Const (set_hour st h) = dut1Const st := by
  unfold set_hour; split <;> rfl

@[simp] lemma set_day_dut1Const (st : WWVBState) (DD : Nat) :
    dut1Const (set_day st DD) = dut1Const st := by
  unfold set_day; split <;> rfl

@[simp] lemma set_month_dut1Const (st : WWVBState) (MM : Nat) :
    dut1Const (set_month st MM) = dut1Const st := by
  unfold set_month; split <;> rfl

@[simp] lemma set_doty_dut1Const (st : WWVBState) (d : Nat) :
    dut1Const (set_doty st d) = dut1Const st := by
  unfold set_doty; split <;> rfl

@[simp] lemma set_year_dut1Const (st : WWVBState) (y : Nat) :
    dut1Const (set_year st y) = dut1Const st := by
  unfold set_year; split <;> rfl

@[simp] lemma set_misc_dut1Const (st : WWVBState) (ly : Bool) (ds : Nat) :
    dut1Const (set_misc st ly ds) = dut1Const st := by
  unfold set_misc; split <;> (dsimp only; split <;> rfl)

@[simp] lemma set_mins_frame_index (st : WWVBState) (m : Nat) :
    (set_mins st m).frame_index = st.frame_index := by
  unfold set_mins; split <;> rfl

@[simp] lemma set_hour_frame_index (st : WWVBState) (h : Nat) :
    (set_hour st h).frame_index = st.frame_index := by
  unfold set_hour; split <;> rfl

@[simp] lemma set_day_frame_index (st : WWVBState) (DD : Nat) :
    (set_day st DD).frame_index = st.frame_index := by
  unfold set_day; split <;> rfl

@[simp] lemma set_month_frame_index (st : WWVBState) (MM : Nat) :
    (set_month st MM).frame_index = st.frame_index := by
  unfold set_month; split <;> rfl

@[simp] lemma set_doty_frame_index (st : WWVBState) (d : Nat) :
    (set_doty st d).frame_index = st.frame_index := by
  unfold set_doty; split <;> rfl

@[simp] lemma set_year_frame_index (st : WWVBState) (y : Nat) :
    (set_year st y).frame_index = st.frame_index := by
  unfold set_year; split <;> rfl

@[simp] lemma set_misc_frame_index (st : WWVBState) (ly : Bool) (ds : Nat) :
    (set_misc st ly ds).frame_index = st.frame_index := by
  unfold set_misc; split <;> (dsimp only; split <;> rfl)

@[simp] lemma set_lowTime_frame_index (st : WWVBState) :
    (set_lowTime st).frame_index = st.frame_index := by
  unfold set_lowTime
  split
  · rfl
  · dsimp only
    repeat' split
    all_goals rfl

@[simp] lemma set_lowTime_MISC (st : WWVBState) : (set_lowTime st).MISC = st.MISC := by
  unfold set_lowTime
  split
  · rfl
  · dsimp only
    repeat' split
    all_goals rfl

@[simp] lemma set_lowTime_dut1Const (st : WWVBState) :
    dut1Const (set_lowTime st) = dut1Const st := by
  unfold set_lowTime
  split
  · rfl
  · dsimp only
    repeat' split
    all_goals rfl

lemma set_lowTime_marker {st : WWVBState} (h : isMarkerIndex st.frame_index = true) :
    set_lowTime st = { st with WWVB_LOWTIME := st.WWVB_MARKER } := by
  unfold set_lowTime; rw [if_pos h]

@[simp] lemma set_time_internal_mins_ (st : WWVBState) (a b c d e f : Nat) :
    (set_time_internal st a b c d e f).mins_ = a := by
  unfold set_time_internal; simp

@[simp] lemma set_time_internal_hour_ (st : WWVBState) (a b c d e f : Nat) :
    (set_time_internal st a b c d e f).hour_ = b := by
  unfold set_time_internal; simp

@[simp] lemma set_time_internal_DD_ (st : WWVBState) (a b c d e f : Nat) :
    (set_time_internal st a b c d e f).DD_ = c := by
  unfold set_time_internal; simp

@[simp] lemma set_time_internal_MM_ (st : WWVBState) (a b c d e f : Nat) :
    (set_time_internal st a b c d e f).MM_ = d := by
  unfold set_time_internal; simp

@[simp] lemma set_time_internal_YY_ (st : WWVBState) (a b c d e f : Nat) :
    (set_time_internal st a b c d e f).YY_ = e := by
  unfold set_time_internal; simp

@[simp] lemma set_time_internal_doty_ (st : WWVBState) (a b c d e f : Nat) :
    (set_time_internal st a b c d e f).doty_ =
      to_day_of_the_year c d (is_leap_year (2000 + e)) := by
  unfold set_time_internal; simp

@[simp] lemma set_time_internal_MINS (st : WWVBState) (a b c d e f : Nat) :
    (set_time_internal st a b c d e f).MINS = (set_mins st a).MINS := by
  unfold set_time_internal; simp

@[simp] lemma set_time_internal_MISC_b6 (st : WWVBState) (a b c d e f : Nat) :
    (set_time_internal st a b c d e f).MISC.b6 = st.MISC.b6 := by
  unfold set_time_internal; simp

@[simp] lemma set_time_internal_dut1Const (st : WWVBState) (a b c d e f : Nat) :
    dut1Const (set_time_internal st a b c d e f) = dut1Const st := by
  unfold set_time_internal; simp

@[simp] lemma set_time_internal_frame_index (st : WWVBState) (a b c d e f : Nat) :
    (set_time_internal st a b c d e f).frame_index = st.frame_index := by
  unfold set_time_internal; simp

lemma set_time_get (st : WWVBState) (m h DD MM YY ds : Nat) :
    get_time (set_time st m h DD MM YY ds) = addTimezone m h DD MM YY 1 0 := by
  unfold set_time get_time; simp

lemma add_time_get (st : WWVBState) (a b : Nat) :
    get_time (add_time st a b) =
      addTimezone st.mins_ st.hour_ st.DD_ st.MM_ st.YY_ a b := by
  unfold add_time get_time; simp

lemma set_time_MINS (st : WWVBState) (m h DD MM YY ds : Nat) :
    (set_time st m h DD MM YY ds).MINS =
      (set_mins st ((m + 1) % 60)).MINS := by
  unfold set_time; simp [addTimezone]

lemma add_time_MINS (st : WWVBState) (a b : Nat) :
    (add_time st a b).MINS = (set_mins st ((st.mins_ + a) % 60)).MINS := by
  unfold add_time; simp [addTimezone]

@[simp] lemma set_time_MISC_b6 (st : WWVBState) (m h DD MM YY ds : Nat) :
    (set_time st m h DD MM YY ds).MISC.b6 = st.MISC.b6 := by
  unfold set_time; simp

@[simp] lemma add_time_MISC_b6 (st : WWVBState) (a b : Nat) :
    (add_time st a b).MISC.b6 = st.MISC.b6 := by
  unfold add_time; simp

@[simp] lemma set_time_dut1Const (st : WWVBState) (m h DD MM YY ds : Nat) :
    dut1Const (set_time st m h DD MM YY ds) = dut1Const st := by
  unfold set_time; simp

@[simp] lemma add_time_dut1Const (st : WWVBState) (a b : Nat) :
    dut1Const (add_time st a b) = dut1Const st := by
  unfold add_time; simp

@[simp] lemma add_time_frame_index (st : WWVBState) (a b : Nat) :
    (add_time st a b).frame_index = st.frame_index := by
  unfold add_time; simp

@[simp] lemma set_lowTime_mins_ (st : WWVBState) : (set_lowTime st).mins_ = st.mins_ := by
  unfold set_lowTime
  split
  · rfl
  · dsimp only
    repeat' split
    all_goals rfl

@[simp] lemma set_lowTime_hour_ (st : WWVBState) : (set_lowTime st).hour_ = st.hour_ := by
  unfold set_lowTime
  split
  · rfl
  · dsimp only
    repeat' split
    all_goals rfl

@[simp] lemma set_lowTime_DD_ (st : WWVBState) : (set_lowTime st).DD_ = st.DD_ := by
  unfold set_lowTime
  split
  · rfl
  · dsimp only
    repeat' split
    all_goals rfl

@[simp] lemma set_lowTime_MM_ (st : WWVBState) : (set_lowTime st).MM_ = st.MM_ := by
  unfold set_lowTime
  split
  · rfl
  · dsimp only
    repeat' split
    all_goals rfl

@[simp] lemma set_lowTime_YY_ (st : WWVBState) : (set_lowTime st).YY_ = st.YY_ := by
  unfold set_lowTime
  split
  · rfl
  · dsimp only
    repeat' split
    all_goals rfl

@[simp] lemma set_lowTime_doty_ (st : WWVBState) : (set_lowTime st).doty_ = st.doty_ := by
  unfold set_lowTime
  split
  · rfl
  · dsimp only
    repeat' split
    all_goals rfl

@[simp] lemma set_lowTime_MINS (st : WWVBState) : (set_lowTime st).MINS = st.MINS := by
  unfold set_lowTime
  split
  · rfl
  · dsimp only
    repeat' split
    all_goals rfl

@[simp] lemma set_lowTime_duty_high (st : WWVBState) :
    (set_lowTime st).duty_high = st.duty_high := by
  unfold set_lowTime
  split
  · rfl
  · dsimp only
    repeat' split
    all_goals rfl

@[simp] lemma set_mins_duty_high (st : WWVBState) (m : Nat) :
    (set_mins st m).duty_high = st.duty_high := by
  unfold set_mins; split <;> rfl

@[simp] lemma set_hour_duty_high (st : WWVBState) (h : Nat) :
    (set_hour st h).duty_high = st.duty_high := by
  unfold set_hour; split <;> rfl

@[simp] lemma set_day_duty_high (st : WWVBState) (DD : Nat) :
    (set_day st DD).duty_high = st.duty_high := by
  unfold set_day; split <;> rfl

@[simp] lemma set_month_duty_high (st : WWVBState) (MM : Nat) :
    (set_month st MM).duty_high = st.duty_high := by
  unfold set_month; split <;> rfl

@[simp] lemma set_doty_duty_high (st : WWVBState) (d : Nat) :
    (set_doty st d).duty_high = st.duty_high := by
  unfold set_doty; split <;> rfl

@[simp] lemma set_year_duty_high (st : WWVBState) (y : Nat) :
    (set_year st y).duty_high = st.duty_high := by
  unfold set_year; split <;> rfl

@[simp] lemma set_misc_duty_high (st : WWVBState) (ly : Bool) (ds : Nat) :
    (set_misc st ly ds).duty_high = st.duty_high := by
  unfold set_misc; split <;> (dsimp only; split <;> rfl)

@[simp] lemma set_time_internal_duty_high (st : WWVBState) (a b c d e f : Nat) :
    (set_time_internal st a b c d e f).duty_high = st.duty_high := by
  unfold set_time_internal; simp

@[simp] lemma add_time_duty_high (st : WWVBState) (a b : Nat) :
    (add_time st a b).duty_high = st.duty_high := by
  unfold add_time; simp

@[simp] lemma add_time_mins_ (st : WWVBState) (a b : Nat) :
    (add_time st a b).mins_ = (st.mins_ + a) % 60 := by
  unfold add_time; simp [addTimezone]

@[simp] lemma set_lowTime_DUT1 (st : WWVBState) : (set_lowTime st).DUT1 = st.DUT1 := by
  unfold set_lowTime
  split
  · rfl
  · dsimp only
    repeat' split
    all_goals rfl

@[simp] lemma set_lowTime_YEAR (st : WWVBState) : (set_lowTime st).YEAR = st.YEAR := by
  unfold set_lowTime
  split
  · rfl
  · dsimp only
    repeat' split
    all_goals rfl

@[simp] lemma add_time_DUT1_b4 (st : WWVBState) (a b : Nat) :
    (add_time st a b).DUT1.b4 = st.DUT1.b4 :=
  congrArg (fun t => t.1) (add_time_dut1Const st a b)

@[simp] lemma add_time_DUT1_b5 (st : WWVBState) (a b : Nat) :
    (add_time st a b).DUT1.b5 = st.DUT1.b5 :=
  congrArg (fun t => t.2.1) (add_time_dut1Const st a b)

@[simp] lemma add_time_DUT1_b6 (st : WWVBState) (a b : Nat) :
    (add_time st a b).DUT1.b6 = st.DUT1.b6 :=
  congrArg (fun t => t.2.2.1) (add_time_dut1Const st a b)

@[simp] lemma add_time_DUT1_b7 (st : WWVBState) (a b : Nat) :
    (add_time st a b).DUT1.b7 = st.DUT1.b7 :=
  congrArg (fun t => t.2.2.2.1) (add_time_dut1Const st a b)

@[simp] lemma add_time_DUT1_b8 (st : WWVBState) (a b : Nat) :
    (add_time st a b).DUT1.b8 = st.DUT1.b8 :=
  congrArg (fun t => t.2.2.2.2.1) (add_time_dut1Const st a b)

@[simp] lemma add_time_DUT1_b9 (st : WWVBState) (a b : Nat) :
    (add_time st a b).DUT1.b9 = st.DUT1.b9 :=
  congrArg (fun t => t.2.2.2.2.2.1) (add_time_dut1Const st a b)

@[simp] lemma add_time_YEAR_b0 (st : WWVBState) (a b : Nat) :
    (add_time st a b).YEAR.b0 = st.YEAR.b0 :=
  congrArg (fun t => t.2.2.2.2.2.2.1) (add_time_dut1Const st a b)

@[simp] lemma add_time_YEAR_b1 (st : WWVBState) (a b : Nat) :
    (add_time st a b).YEAR.b1 = st.YEAR.b1 :=
  congrArg (fun t => t.2.2.2.2.2.2.2.1) (add_time_dut1Const st a b)

@[simp] lemma add_time_YEAR_b2 (st : WWVBState) (a b : Nat) :
    (add_time st a b).YEAR.b2 = st.YEAR.b2 :=
  congrArg (fun t => t.2.2.2.2.2.2.2.2.1) (add_time_dut1Const st a b)

@[simp] lemma add_time_YEAR_b3 (st : WWVBState) (a b : Nat) :
    (add_time st a b).YEAR.b3 = st.YEAR.b3 :=
  congrArg (fun t => t.2.2.2.2.2.2.2.2.2) (add_time_dut1Const st a b)

lemma interrupt_routine_MISC_b6 (st : WWVBState) :
    (interrupt_routine st).MISC.b6 = st.MISC.b6 := by
  unfold interrupt_routine
  dsimp only
  split
  · rfl
  split
  · split <;> simp
  · rfl

lemma interrupt_routine_dut1Const (st : WWVBState) :
    dut1Const (interrupt_routine st) = dut1Const st := by
  unfold interrupt_routine
  dsimp only
  split
  · rfl
  split
  · split <;> simp [dut1Const]
  · rfl

lemma interrupt_frame_lt (st : WWVBState) (h : st.frame_index < 60) :
    (interrupt_routine st).frame_index < 60 := by
  unfold interrupt_routine
  dsimp only
  split
  · exact h
  split
  · split <;> (simp; try omega)
  · exact h

lemma interrupt_frame_step (st : WWVBState) (h1 : st.WWVB_LOWTIME < st.WWVB_ENDOFBIT)
    (h2 : st.isr_count + 1 ≥ st.WWVB_ENDOFBIT) (h3 : st.frame_index < 60) :
    (interrupt_routine st).frame_index = (st.frame_index + 1) % 60 := by
  unfold interrupt_routine
  dsimp only
  rw [if_neg (by omega), if_pos (by omega)]
  split
  · simp
    omega
  · simp
    omega

lemma set_lowTime_marker_of_zero {st : WWVBState} (h : st.frame_index = 0) :
    set_lowTime st = { st with WWVB_LOWTIME := st.WWVB_MARKER } := by
  apply set_lowTime_marker
  rw [h]
  decide

@[simp] lemma add_time_hour_ (st : WWVBState) (a b : Nat) :
    (add_time st a b).hour_ = (st.hour_ + b + (st.mins_ + a) / 60) % 24 := by
  unfold add_time; simp [addTimezone]

@[simp] lemma add_time_DD_ (st : WWVBState) (a b : Nat) :
    (add_time st a b).DD_ =
      (add_days ((st.hour_ + b + (st.mins_ + a) / 60) / 24) (st.DD_, st.MM_, st.YY_)).1 := by
  unfold add_time; simp [addTimezone]

@[simp] lemma add_time_MM_ (st : WWVBState) (a b : Nat) :
    (add_time st a b).MM_ =
      (add_days ((st.hour_ + b + (st.mins_ + a) / 60) / 24) (st.DD_, st.MM_, st.YY_)).2.1 := by
  unfold add_time; simp [addTimezone]

@[simp] lemma add_time_YY_ (st : WWVBState) (a b : Nat) :
    (add_time st a b).YY_ =
      (add_days ((st.hour_ + b + (st.mins_ + a) / 60) / 24) (st.DD_, st.MM_, st.YY_)).2.2 := by
  unfold add_time; simp [addTimezone]

@[simp] lemma add_time_doty_ (st : WWVBState) (a b : Nat) :
    (add_time st a b).doty_ =
      to_day_of_the_year (add_time st a b).DD_ (add_time st a b).MM_
        (is_leap_year (2000 + (add_time st a b).YY_)) := by
  unfold add_time; simp [addTimezone]

@[simp] lemma set_time_mins_ (st : WWVBState) (m h DD MM YY ds : Nat) :
    (set_time st m h DD MM YY ds).mins_ = (m + 1) % 60 := by
  unfold set_time; simp [addTimezone]

lemma set_mins_skip {st : WWVBState} {m : Nat} (h : st.mins_ = m) :
    set_mins st m = st := by
  unfold set_mins
  rw [if_neg (by simp [h])]

lemma set_hour_skip {st : WWVBState} {h : Nat} (hyp : st.hour_ = h) :
    set_hour st h = st := by
  unfold set_hour
  rw [if_neg (by simp [hyp])]

lemma interrupt_no_rollover (st : WWVBState)
    (hlt : st.WWVB_LOWTIME < st.WWVB_ENDOFBIT)
    (hend : st.isr_count + 1 = st.WWVB_ENDOFBIT)
    (hne : st.frame_index + 1 ≠ 60) :
    (interrupt_routine st).frame_index = st.frame_index + 1 ∧
    get_time (interrupt_routine st) = get_time st := by
  unfold interrupt_routine
  dsimp only
  rw [if_neg (by omega), if_pos (by omega), if_neg hne]
  constructor
  · simp
  · simp [get_time]

lemma interrupt_rollover (st : WWVBState)
    (h1 : st.WWVB_LOWTIME < st.WWVB_ENDOFBIT)
    (h2 : st.isr_count + 1 = st.WWVB_ENDOFBIT)
    (h3 : st.frame_index = 59) :
    (interrupt_routine st).frame_index = 0 ∧
    (interrupt_routine st).subframe_index = 0 ∧
    (interrupt_routine st).isr_count = 0 ∧
    (interrupt_routine st).duty_high = false ∧
    (interrupt_routine st).WWVB_LOWTIME = (interrupt_routine st).WWVB_MARKER ∧
    get_time (interrupt_routine st) =
      addTimezone st.mins_ st.hour_ st.DD_ st.MM_ st.YY_ 1 0 ∧
    (interrupt_routine st).doty_ =
      to_day_of_the_year (interrupt_routine st).DD_ (interrupt_routine st).MM_
        (is_leap_year (2000 + (interrupt_routine st).YY_)) := by
  unfold interrupt_routine
  dsimp only
  rw [if_neg (by omega), if_pos (by omega), if_pos (by omega)]
  rw [set_lowTime_marker_of_zero rfl]
  refine ⟨rfl, rfl, rfl, ?_, rfl, ?_, ?_⟩
  · simp
  · simp [get_time, addTimezone]
  · simp

lemma interrupt_rollover_MINS (st : WWVBState)
    (h1 : st.WWVB_LOWTIME < st.WWVB_ENDOFBIT)
    (h2 : st.isr_count + 1 = st.WWVB_ENDOFBIT)
    (h3 : st.frame_index = 59) (hmin : st.mins_ = 59) :
    (interrupt_routine st).mins_ = 0 ∧
    [(interrupt_routine st).MINS.b1, (interrupt_routine st).MINS.b2,
     (interrupt_routine st).MINS.b3, (interrupt_routine st).MINS.b5,
     (interrupt_routine st).MINS.b6, (interrupt_routine st).MINS.b7,
     (interrupt_routine st).MINS.b8] = weightLadder [40, 20, 10, 8, 4, 2, 1] 0 := by
  unfold interrupt_routine
  dsimp only
  rw [if_neg (by omega), if_pos (by omega), if_pos (by omega)]
  rw [set_lowTime_marker_of_zero rfl]
  constructor
  · simp [hmin]
  · dsimp only
    simp only [set_lowTime_MINS, add_time_MINS]
    rw [set_mins_MINS (by simp [hmin])]
    unfold minsWrite
    dsimp only
    norm_num [hmin]
    exact minsGetD_ladder 0 (by decide)

lemma set_lowTime_data (st : WWVBState) (h60 : st.frame_index < 60)
    (hm : isMarkerIndex st.frame_index = false) :
    (set_lowTime st).WWVB_LOWTIME =
      pulse_width st ((subframeOf st st.frame_index).get (st.frame_index % 10)) ∧
    (set_lowTime st).subframe_index = st.frame_index % 10 := by
  unfold set_lowTime subframeOf pulse_width
  rw [if_neg (by simp [hm])]
  dsimp only
  constructor
  · repeat' split
    all_goals first | rfl | omega
  · repeat' split
    all_goals rfl

/-- C1: the claim says every symbol's low-duration threshold matches its
documented fraction of the bit period (LOW 20%, HIGH 50%, MARKER 80%, end of
bit 100%, each within the < 10 µs rounding tolerance).  The named constants do
satisfy those fractions, but `setup()` assigns `pulse_width[1]` twice (first
`WWVB_HIGH`, then `WWVB_MARKER`) and never assigns `pulse_width[2]`, so the
threshold the modulator actually uses for a HIGH symbol (a data bit 1, e.g.
frame position 8 whose MINS bit is 1) is the 80% marker threshold 48485, not
the 50% threshold 30303 — on both clock branches.  This evaluates the code at
the failing input. -/
theorem C1_high_symbol_uses_marker_threshold :
    (afterSetup.WWVB_LOW = 12121 ∧ afterSetup.WWVB_HIGH = 30303 ∧
     afterSetup.WWVB_MARKER = 48485 ∧ afterSetup.WWVB_ENDOFBIT = 60606) ∧
    (5 * afterSetup.WWVB_LOW + 1 = afterSetup.WWVB_ENDOFBIT ∧
     2 * afterSetup.WWVB_HIGH = afterSetup.WWVB_ENDOFBIT ∧
     5 * afterSetup.WWVB_MARKER = 4 * afterSetup.WWVB_ENDOFBIT + 1) ∧
    afterSetup.pulse_width0 = afterSetup.WWVB_LOW ∧
    afterSetup.pulse_width1 = afterSetup.WWVB_MARKER ∧
    afterSetup.pulse_width1 ≠ afterSetup.WWVB_HIGH ∧
    afterSetup.pulse_width2 = 0 ∧
    afterSetup.MINS.b8 = true ∧
    (set_lowTime dataIndexState).WWVB_LOWTIME = afterSetup.WWVB_MARKER ∧
    (setup false initialState).pulse_width1 = (setup false initialState).WWVB_MARKER ∧
    (setup false initialState).pulse_width1 ≠ (setup false initialState).WWVB_HIGH := by
  decide

/-- C2: for minutes 0–59, hours 0–23 and two-digit years 0–99, the subframe
data bits written by `set_mins` / `set_hour` / `set_year` equal the greedy BCD
weight-ladder result (minute weights 40,20,10,8,4,2,1 at positions 1–3 and
5–8; hour weights 20,10,8,4,2,1 at positions 2–3 and 5–8; year tens weights
80,40,20,10 at YEAR 5–8 and ones weights 8,4,2,1 at MISC 0–3), and the unused
positions (MINS[4], HOUR[0], HOUR[1]) stay 0. -/
theorem C2_bcd_weight_ladder (m h y : Nat) (hm : m < 60) (hh : h < 24)
    (hy : y < 100) (st : WWVBState)
    (h1 : st.mins_ ≠ m) (h2 : st.hour_ ≠ h) (h3 : st.YY_ ≠ y)
    (u1 : st.MINS.b4 = false) (u2 : st.HOUR.b0 = false) (u3 : st.HOUR.b1 = false) :
    ([(set_mins st m).MINS.b1, (set_mins st m).MINS.b2, (set_mins st m).MINS.b3,
      (set_mins st m).MINS.b5, (set_mins st m).MINS.b6, (set_mins st m).MINS.b7,
      (set_mins st m).MINS.b8] = weightLadder [40, 20, 10, 8, 4, 2, 1] m ∧
      (set_mins st m).MINS.b4 = false) ∧
    ([(set_hour st h).HOUR.b2, (set_hour st h).HOUR.b3, (set_hour st h).HOUR.b5,
      (set_hour st h).HOUR.b6, (set_hour st h).HOUR.b7, (set_hour st h).HOUR.b8] =
      weightLadder [20, 10, 8, 4, 2, 1] h ∧
      (set_hour st h).HOUR.b0 = false ∧ (set_hour st h).HOUR.b1 = false) ∧
    [(set_year st y).YEAR.b5, (set_year st y).YEAR.b6, (set_year st y).YEAR.b7,
     (set_year st y).YEAR.b8, (set_year st y).MISC.b0, (set_year st y).MISC.b1,
     (set_year st y).MISC.b2, (set_year st y).MISC.b3] =
      weightLadder [80, 40, 20, 10, 8, 4, 2, 1] y := by
  refine ⟨⟨?_, ?_⟩, ⟨?_, ?_, ?_⟩, ?_⟩
  · rw [set_mins_MINS h1]
    unfold minsWrite
    dsimp only
    exact minsGetD_ladder m hm
  · rw [set_mins_MINS h1]
    unfold minsWrite
    dsimp only
    exact u1
  · rw [set_hour_HOUR h2]
    unfold hourWrite
    dsimp only
    exact hourGetD_ladder h hh
  · rw [set_hour_HOUR h2]
    unfold hourWrite
    dsimp only
    exact u2
  · rw [set_hour_HOUR h2]
    unfold hourWrite
    dsimp only
    exact u3
  · rw [(set_year_frames h3).1, (set_year_frames h3).2]
    unfold yearWrite
    dsimp only
    exact yearGetD_ladder y hy

/-- C2 witness: the hypotheses hold at the post-setup state with minute 37,
hour 23, year 99, and the minute 37 pattern sets exactly the 20,10,4,2,1
weights. -/
theorem C2_bcd_weight_ladder_witness :
    ((37 : Nat) < 60 ∧ (23 : Nat) < 24 ∧ (99 : Nat) < 100 ∧
     afterSetup.mins_ ≠ 37 ∧ afterSetup.hour_ ≠ 23 ∧ afterSetup.YY_ ≠ 99 ∧
     afterSetup.MINS.b4 = false ∧ afterSetup.HOUR.b0 = false ∧
     afterSetup.HOUR.b1 = false) ∧
    ([(set_mins afterSetup 37).MINS.b1, (set_mins afterSetup 37).MINS.b2,
      (set_mins afterSetup 37).MINS.b3, (set_mins afterSetup 37).MINS.b5,
      (set_mins afterSetup 37).MINS.b6, (set_mins afterSetup 37).MINS.b7,
      (set_mins afterSetup 37).MINS.b8] =
        weightLadder [40, 20, 10, 8, 4, 2, 1] 37 ∧
      (set_mins afterSetup 37).MINS.b4 = false) ∧
    weightLadder [40, 20, 10, 8, 4, 2, 1] 37 =
      [false, true, true, false, true, true, true] :=
  ⟨by decide,
   (C2_bcd_weight_ladder 37 23 99 (by decide) (by decide) (by decide) afterSetup
      (by decide) (by decide) (by decide) (by decide) (by decide) (by decide)).1,
   by decide⟩

/-- C3: the claim says the leap-second-warning bit MISC[6] is 0 after
initialization and never set to 1.  In the code it is the opposite: the brace
initializer leaves `MISC[6] = 1`, and no operation ever writes that position
(the clearing statement is commented out), so the bit is stuck at 1 on both
clock branches and under every update.  This evaluates the code at the
failing input. -/
theorem C3_leap_second_bit_stuck_at_one :
    afterSetup.MISC.b6 = true ∧
    (setup false initialState).MISC.b6 = true ∧
    (∀ st m h DD MM YY ds, (set_time st m h DD MM YY ds).MISC.b6 = st.MISC.b6) ∧
    (∀ st a b, (add_time st a b).MISC.b6 = st.MISC.b6) ∧
    (∀ st, (interrupt_routine st).MISC.b6 = st.MISC.b6) ∧
    (∀ st ly ds, (set_misc st ly ds).MISC.b6 = st.MISC.b6) ∧
    (∀ st, (start st).MISC.b6 = st.MISC.b6) := by
  refine ⟨by decide, by decide, fun st m h DD MM YY ds => by simp,
          fun st a b => by simp, interrupt_routine_MISC_b6,
          fun st ly ds => by simp, fun st => ?_⟩
  unfold start
  simp

/-- C4 counterexample: the claim says no bit of the DUT1 subframe is ever
changed by a TimeState update, but `set_doty` writes the day-of-year ones
digit into DUT1[0..3]: the public `set_time` at 00:00 Jan 1 of year 00 (day
of year 1) flips DUT1[0] from its post-setup value 1 to 0. -/
theorem C4_counterexample :
    afterSetup.DUT1.b0 = true ∧
    (set_time afterSetup 0 0 1 1 0 0).DUT1.b0 = false := by
  decide

/-- C4 amended: the DUT1 sign pattern (DUT1 positions 4–9, sign set negative
at position 7 by `set_dut1` during setup) and the DUT1 magnitude (which
resides in YEAR positions 0–3 and is zeroed once at setup) are never changed
by any TimeState update; only DUT1 positions 0–3, which carry the day-of-year
ones digit, change with TimeState. -/
theorem C4_dut1_sign_and_magnitude_constant :
    (afterSetup.DUT1.b7 = true ∧ afterSetup.YEAR.b0 = false ∧
     afterSetup.YEAR.b1 = false ∧ afterSetup.YEAR.b2 = false ∧
     afterSetup.YEAR.b3 = false) ∧
    (∀ st m h DD MM YY ds, dut1Const (set_time st m h DD MM YY ds) = dut1Const st) ∧
    (∀ st a b, dut1Const (add_time st a b) = dut1Const st) ∧
    (∀ st, dut1Const (interrupt_routine st) = dut1Const st) :=
  ⟨by decide, fun st m h DD MM YY ds => set_time_dut1Const st m h DD MM YY ds,
   fun st a b => add_time_dut1Const st a b, interrupt_routine_dut1Const⟩

/-- C5 counterexample: the claim says the subframe bits after a set operation
are a function of the stored field value alone.  From the post-setup state,
`set_time` leading to stored minute 0 skips re-encoding (the stored `mins_`
is already 0 while the MINS array still holds its brace-initializer pattern),
so two call sequences ending in the same stored time leave different MINS
bits. -/
theorem C5_counterexample :
    get_time (set_time afterSetup 59 0 1 1 0 0) =
      get_time (set_time (set_time afterSetup 0 0 1 1 0 0) 59 0 1 1 0 0) ∧
    (set_time afterSetup 59 0 1 1 0 0).MINS ≠
      (set_time (set_time afterSetup 0 0 1 1 0 0) 59 0 1 1 0 0).MINS := by
  decide

/-- C5 amended: when the new field value differs from the stored one, the
data bits written by the memoized encoder are a function of the new value
alone (two arbitrary states agree after encoding the same value), and
encoding the same value twice in a row is a no-op the second time, leaving
the state (hence the subframes) bit-identical. -/
theorem C5_memoized_encoder_amended (st st2 : WWVBState) (m h : Nat)
    (ha : st.mins_ ≠ m) (hb : st2.mins_ ≠ m)
    (hc : st.hour_ ≠ h) (hd : st2.hour_ ≠ h) :
    ([(set_mins st m).MINS.b1, (set_mins st m).MINS.b2, (set_mins st m).MINS.b3,
      (set_mins st m).MINS.b5, (set_mins st m).MINS.b6, (set_mins st m).MINS.b7,
      (set_mins st m).MINS.b8] =
     [(set_mins st2 m).MINS.b1, (set_mins st2 m).MINS.b2, (set_mins st2 m).MINS.b3,
      (set_mins st2 m).MINS.b5, (set_mins st2 m).MINS.b6, (set_mins st2 m).MINS.b7,
      (set_mins st2 m).MINS.b8]) ∧
    ([(set_hour st h).HOUR.b2, (set_hour st h).HOUR.b3, (set_hour st h).HOUR.b5,
      (set_hour st h).HOUR.b6, (set_hour st h).HOUR.b7, (set_hour st h).HOUR.b8] =
     [(set_hour st2 h).HOUR.b2, (set_hour st2 h).HOUR.b3, (set_hour st2 h).HOUR.b5,
      (set_hour st2 h).HOUR.b6, (set_hour st2 h).HOUR.b7, (set_hour st2 h).HOUR.b8]) ∧
    set_mins (set_mins st m) m = set_mins st m ∧
    set_hour (set_hour st h) h = set_hour st h := by
  refine ⟨?_, ?_, ?_, ?_⟩
  · rw [set_mins_MINS ha, set_mins_MINS hb]
    unfold minsWrite
    dsimp only
  · rw [set_hour_HOUR hc, set_hour_HOUR hd]
    unfold hourWrite
    dsimp only
  · exact set_mins_skip (set_mins_mins_ st m)
  · exact set_hour_skip (set_hour_hour_ st h)

/-- C5 witness: two different starting states (post-setup, and post-setup
after encoding minute 5 / hour 4) produce identical bits when encoding minute
37 and hour 12, and re-encoding is a no-op. -/
theorem C5_memoized_encoder_amended_witness :
    (afterSetup.mins_ ≠ 37 ∧ (set_hour (set_mins afterSetup 5) 4).mins_ ≠ 37 ∧
     afterSetup.hour_ ≠ 12 ∧ (set_hour (set_mins afterSetup 5) 4).hour_ ≠ 12) ∧
    ([(set_mins afterSetup 37).MINS.b1, (set_mins afterSetup 37).MINS.b2,
      (set_mins afterSetup 37).MINS.b3, (set_mins afterSetup 37).MINS.b5,
      (set_mins afterSetup 37).MINS.b6, (set_mins afterSetup 37).MINS.b7,
      (set_mins afterSetup 37).MINS.b8] =
     [(set_mins (set_hour (set_mins afterSetup 5) 4) 37).MINS.b1,
      (set_mins (set_hour (set_mins afterSetup 5) 4) 37).MINS.b2,
      (set_mins (set_hour (set_mins afterSetup 5) 4) 37).MINS.b3,
      (set_mins (set_hour (set_mins afterSetup 5) 4) 37).MINS.b5,
      (set_mins (set_hour (set_mins afterSetup 5) 4) 37).MINS.b6,
      (set_mins (set_hour (set_mins afterSetup 5) 4) 37).MINS.b7,
      (set_mins (set_hour (set_mins afterSetup 5) 4) 37).MINS.b8]) ∧
    set_mins (set_mins afterSetup 37) 37 = set_mins afterSetup 37 :=
  ⟨by decide,
   (C5_memoized_encoder_amended afterSetup (set_hour (set_mins afterSetup 5) 4)
      37 12 (by decide) (by decide) (by decide) (by decide)).1,
   (C5_memoized_encoder_amended afterSetup (set_hour (set_mins afterSetup 5) 4)
      37 12 (by decide) (by decide) (by decide) (by decide)).2.2.1⟩

/-- C6: on completion of a bit-second (the tick reaching `WWVB_ENDOFBIT`),
`frame_index` is incremented by exactly one and the stored time is untouched;
when the incremented index reaches 60 it is reset to 0, the external
advance-by-one-minute operation is applied to the TimeState (hour, day,
month, year carried per the calendar model, day-of-year recomputed), and the
subframes are recomputed from the new minute before the index-0 marker is
selected as the next low time.  In particular from minute 59 the new stored
minute is 0 and the minute subframe re-encodes to the all-zero data pattern. -/
theorem C6_minute_rollover (st : WWVBState)
    (hlt : st.WWVB_LOWTIME < st.WWVB_ENDOFBIT)
    (hend : st.isr_count + 1 = st.WWVB_ENDOFBIT) :
    (st.frame_index + 1 ≠ 60 →
      (interrupt_routine st).frame_index = st.frame_index + 1 ∧
      get_time (interrupt_routine st) = get_time st) ∧
    (st.frame_index = 59 →
      (interrupt_routine st).frame_index = 0 ∧
      (interrupt_routine st).subframe_index = 0 ∧
      (interrupt_routine st).isr_count = 0 ∧
      (interrupt_routine st).duty_high = false ∧
      (interrupt_routine st).WWVB_LOWTIME = (interrupt_routine st).WWVB_MARKER ∧
      get_time (interrupt_routine st) =
        addTimezone st.mins_ st.hour_ st.DD_ st.MM_ st.YY_ 1 0 ∧
      (interrupt_routine st).doty_ =
        to_day_of_the_year (interrupt_routine st).DD_ (interrupt_routine st).MM_
          (is_leap_year (2000 + (interrupt_routine st).YY_)) ∧
      (st.mins_ = 59 →
        (interrupt_routine st).mins_ = 0 ∧
        [(interrupt_routine st).MINS.b1, (interrupt_routine st).MINS.b2,
         (interrupt_routine st).MINS.b3, (interrupt_routine st).MINS.b5,
         (interrupt_routine st).MINS.b6, (interrupt_routine st).MINS.b7,
         (interrupt_routine st).MINS.b8] =
          weightLadder [40, 20, 10, 8, 4, 2, 1] 0)) := by
  constructor
  · intro hne
    exact interrupt_no_rollover st hlt hend hne
  · intro h59
    obtain ⟨a1, a2, a3, a4, a5, a6, a7⟩ := interrupt_rollover st hlt hend h59
    exact ⟨a1, a2, a3, a4, a5, a6, a7,
           fun hm => interrupt_rollover_MINS st hlt hend h59 hm⟩

/-- C6 witness: from {minute 59, hour 23, Jan 31, year 26, frame_index 59},
one tick before the end of bit, the next bit-second resets the frame index
and stores Feb 1 00:00 of year 26. -/
theorem C6_minute_rollover_witness :
    (rolloverState.WWVB_LOWTIME < rolloverState.WWVB_ENDOFBIT ∧
     rolloverState.isr_count + 1 = rolloverState.WWVB_ENDOFBIT ∧
     rolloverState.frame_index = 59 ∧ rolloverState.mins_ = 59) ∧
    (interrupt_routine rolloverState).frame_index = 0 ∧
    get_time (interrupt_routine rolloverState) =
      addTimezone rolloverState.mins_ rolloverState.hour_ rolloverState.DD_
        rolloverState.MM_ rolloverState.YY_ 1 0 ∧
    (interrupt_routine rolloverState).mins_ = 0 ∧
    addTimezone rolloverState.mins_ rolloverState.hour_ rolloverState.DD_
      rolloverState.MM_ rolloverState.YY_ 1 0 = (0, 0, 1, 2, 26) :=
  ⟨by decide,
   ((C6_minute_rollover rolloverState (by decide) (by decide)).2 (by decide)).1,
   ((C6_minute_rollover rolloverState (by decide) (by decide)).2
      (by decide)).2.2.2.2.2.1,
   (((C6_minute_rollover rolloverState (by decide) (by decide)).2
      (by decide)).2.2.2.2.2.2.2 (by decide)).1,
   by decide⟩

/-- C7: the frame index stays in [0,60) across every tick and steps by one
modulo 60 at each end of bit; `set_lowTime` emits the MARKER low time at the
marker positions {0,9,19,29,39,49,59} regardless of the subframe bits, and at
every other index emits the data bit of the subframe selected by the decade
of `frame_index`, read at position `frame_index % 10` (mapped through the
`pulse_width` table), setting `subframe_index = frame_index % 10`. -/
theorem C7_frame_cycle_and_markers :
    (∀ st, st.frame_index < 60 → (interrupt_routine st).frame_index < 60) ∧
    (∀ st, st.WWVB_LOWTIME < st.WWVB_ENDOFBIT →
      st.isr_count + 1 = st.WWVB_ENDOFBIT → st.frame_index < 60 →
      (interrupt_routine st).frame_index = (st.frame_index + 1) % 60) ∧
    (∀ st, isMarkerIndex st.frame_index = true →
      (set_lowTime st).WWVB_LOWTIME = st.WWVB_MARKER) ∧
    (∀ st, st.frame_index < 60 → isMarkerIndex st.frame_index = false →
      (set_lowTime st).WWVB_LOWTIME =
        pulse_width st ((subframeOf st st.frame_index).get (st.frame_index % 10)) ∧
      (set_lowTime st).subframe_index = st.frame_index % 10) :=
  ⟨interrupt_frame_lt,
   fun st h1 h2 h3 => interrupt_frame_step st h1 (by omega) h3,
   fun st h => by rw [set_lowTime_marker h], set_lowTime_data⟩

/-- C7 witness: at data index 8 the MINS bit is emitted; at index 19 the
marker is emitted regardless of the HOUR bits. -/
theorem C7_frame_cycle_and_markers_witness :
    (dataIndexState.frame_index < 60 ∧
     isMarkerIndex dataIndexState.frame_index = false) ∧
    ((set_lowTime dataIndexState).WWVB_LOWTIME =
       pulse_width dataIndexState
         ((subframeOf dataIndexState dataIndexState.frame_index).get
            (dataIndexState.frame_index % 10)) ∧
     (set_lowTime dataIndexState).subframe_index =
       dataIndexState.frame_index % 10) ∧
    isMarkerIndex ({ afterSetup with frame_index := 19 } : WWVBState).frame_index
      = true ∧
    (set_lowTime { afterSetup with frame_index := 19 }).WWVB_LOWTIME =
      ({ afterSetup with frame_index := 19 } : WWVBState).WWVB_MARKER :=
  ⟨by decide,
   C7_frame_cycle_and_markers.2.2.2 dataIndexState (by decide) (by decide),
   by decide,
   C7_frame_cycle_and_markers.2.2.1 { afterSetup with frame_index := 19 }
     (by decide)⟩

/-- C8: for every day-of-year 1–366, `set_doty` places the hundreds weights
200,100 at DOTY positions 2–3, the tens weights 80,40,20,10 at DOTY positions
5–8, and the ones weights 8,4,2,1 at DUT1 positions 0–3, exactly matching the
greedy weight-ladder decomposition of the value. -/
theorem C8_day_of_year_cross_subframe (d : Nat) (hd1 : 1 ≤ d) (hd2 : d ≤ 366)
    (st : WWVBState) (h : st.doty_ ≠ d) :
    [(set_doty st d).DOTY.b2, (set_doty st d).DOTY.b3, (set_doty st d).DOTY.b5,
     (set_doty st d).DOTY.b6, (set_doty st d).DOTY.b7, (set_doty st d).DOTY.b8,
     (set_doty st d).DUT1.b0, (set_doty st d).DUT1.b1, (set_doty st d).DUT1.b2,
     (set_doty st d).DUT1.b3] =
      weightLadder [200, 100, 80, 40, 20, 10, 8, 4, 2, 1] d := by
  rw [(set_doty_frames h).1, (set_doty_frames h).2]
  unfold dotyWrite
  dsimp only
  exact dotyGetD_ladder d (by omega)

/-- C8 witness: day-of-year 366 encodes as 200+100 (hundreds 3), 40+20
(tens 6) and 4+2 (ones 6) at the post-setup state. -/
theorem C8_day_of_year_cross_subframe_witness :
    ((1 : Nat) ≤ 366 ∧ (366 : Nat) ≤ 366 ∧ afterSetup.doty_ ≠ 366) ∧
    [(set_doty afterSetup 366).DOTY.b2, (set_doty afterSetup 366).DOTY.b3,
     (set_doty afterSetup 366).DOTY.b5, (set_doty afterSetup 366).DOTY.b6,
     (set_doty afterSetup 366).DOTY.b7, (set_doty afterSetup 366).DOTY.b8,
     (set_doty afterSetup 366).DUT1.b0, (set_doty afterSetup 366).DUT1.b1,
     (set_doty afterSetup 366).DUT1.b2, (set_doty afterSetup 366).DUT1.b3] =
      weightLadder [200, 100, 80, 40, 20, 10, 8, 4, 2, 1] 366 ∧
    weightLadder [200, 100, 80, 40, 20, 10, 8, 4, 2, 1] 366 =
      [true, true, false, true, true, false, false, true, true, false] :=
  ⟨by decide,
   C8_day_of_year_cross_subframe 366 (by decide) (by decide) afterSetup
     (by decide),
   by decide⟩

/-- C9: within a bit-second the tick counter advances by one per tick; at the
tick where the counter equals the active symbol's low-duration threshold the
duty cycle is raised (and nothing else changes), at the end-of-bit tick the
duty cycle is lowered and the counter is reset to zero, and at every other
tick the state changes only by the counter increment, so no duty transition
occurs there. -/
theorem C9_duty_transitions (st : WWVBState)
    (hlt : st.WWVB_LOWTIME < st.WWVB_ENDOFBIT) :
    (st.isr_count + 1 = st.WWVB_LOWTIME →
      interrupt_routine st =
        { st with isr_count := st.isr_count + 1, duty_high := true }) ∧
    (st.isr_count + 1 ≥ st.WWVB_ENDOFBIT →
      (interrupt_routine st).duty_high = false ∧
      (interrupt_routine st).isr_count = 0 ∧
      (st.frame_index < 60 →
        (interrupt_routine st).frame_index = (st.frame_index + 1) % 60)) ∧
    (st.isr_count + 1 ≠ st.WWVB_LOWTIME → st.isr_count + 1 < st.WWVB_ENDOFBIT →
      interrupt_routine st = { st with isr_count := st.isr_count + 1 }) := by
  refine ⟨?_, ?_, ?_⟩
  · intro h
    unfold interrupt_routine
    dsimp only
    rw [if_pos h]
  · intro h
    refine ⟨?_, ?_, fun h60 => interrupt_frame_step st hlt h h60⟩
    · unfold interrupt_routine
      dsimp only
      rw [if_neg (by omega), if_pos h]
      split <;> simp
    · unfold interrupt_routine
      dsimp only
      rw [if_neg (by omega), if_pos h]
  · intro hne hlt2
    unfold interrupt_routine
    dsimp only
    rw [if_neg hne, if_neg (by omega)]

/-- C9 witness: one tick before the LOW threshold, the next tick raises the
duty cycle and only increments the counter. -/
theorem C9_duty_transitions_witness :
    (thresholdState.WWVB_LOWTIME < thresholdState.WWVB_ENDOFBIT ∧
     thresholdState.isr_count + 1 = thresholdState.WWVB_LOWTIME) ∧
    interrupt_routine thresholdState =
      { thresholdState with isr_count := thresholdState.isr_count + 1,
                            duty_high := true } :=
  ⟨by decide, (C9_duty_transitions thresholdState (by decide)).1 (by decide)⟩

/-- C10: the public absolute-time setter stores (and re-encodes) the supplied
time advanced by one minute with calendar carry, not the supplied time: after
`set_time(mins, hour, DD, MM, YY)`, `get_time` returns the input advanced by
one minute, the stored minute is `(mins + 1) % 60`, and the minute subframe
encodes that advanced minute. -/
theorem C10_set_time_stores_plus_one (st : WWVBState) (m h DD MM YY ds : Nat)
    (hm : m < 60) (hh : h < 24) (hD1 : 1 ≤ DD) (hD2 : DD ≤ 31)
    (hM1 : 1 ≤ MM) (hM2 : MM ≤ 12) (hY : YY < 100)
    (henc : st.mins_ ≠ (m + 1) % 60) :
    get_time (set_time st m h DD MM YY ds) = addTimezone m h DD MM YY 1 0 ∧
    (set_time st m h DD MM YY ds).mins_ = (m + 1) % 60 ∧
    [(set_time st m h DD MM YY ds).MINS.b1, (set_time st m h DD MM YY ds).MINS.b2,
     (set_time st m h DD MM YY ds).MINS.b3, (set_time st m h DD MM YY ds).MINS.b5,
     (set_time st m h DD MM YY ds).MINS.b6, (set_time st m h DD MM YY ds).MINS.b7,
     (set_time st m h DD MM YY ds).MINS.b8] =
      weightLadder [40, 20, 10, 8, 4, 2, 1] ((m + 1) % 60) := by
  refine ⟨set_time_get st m h DD MM YY ds, set_time_mins_ st m h DD MM YY ds, ?_⟩
  rw [set_time_MINS, set_mins_MINS henc]
  unfold minsWrite
  dsimp only
  exact minsGetD_ladder _ (by omega)

/-- C10 witness: setting 23:58 Dec 31 of year 99 stores 23:59 Dec 31 of year
99 (the input plus one minute), and the minute subframe encodes 59. -/
theorem C10_set_time_stores_plus_one_witness :
    ((58 : Nat) < 60 ∧ (23 : Nat) < 24 ∧ (1 : Nat) ≤ 31 ∧ (31 : Nat) ≤ 31 ∧
     (1 : Nat) ≤ 12 ∧ (12 : Nat) ≤ 12 ∧ (99 : Nat) < 100 ∧
     afterSetup.mins_ ≠ (58 + 1) % 60) ∧
    get_time (set_time afterSetup 58 23 31 12 99 0) =
      addTimezone 58 23 31 12 99 1 0 ∧
    addTimezone 58 23 31 12 99 1 0 = (59, 23, 31, 12, 99) :=
  ⟨by decide,
   (C10_set_time_stores_plus_one afterSetup 58 23 31 12 99 0 (by decide)
      (by decide) (by decide) (by decide) (by decide) (by decide) (by decide)
      (by decide)).1,
   by decide⟩
